import Mathlib

/-!
Verification of the MyJarvis orchestrator core against its specification.

The definitions below are a shallow embedding of the Python source:
  - tools/__init__.py           (tool registry, risk levels)
  - tools/native_role.py        (switch_role tool, role aliases)
  - core/graph/builder.py       (safety check, sanitiser, chatbot node,
                                 state_updater node)
  - core/llm_provider.py        (LLMFactory role configuration fallback)
  - main.py                     (driver: confirmation, rejection injection)

Python strings are Lean Strings; Python list slices, dict lookups and
substring tests are modelled by explicit helper functions defined here.
-/

/- ================= Python-style string helpers ================= -/

/-- Python substring test: the translation of the expression
pat in s (character-list based so that proofs can compute). -/
def strContains (s pat : String) : Bool :=
  s.toList.tails.any (fun t => pat.toList.isPrefixOf t)

/-- Python str.startswith. -/
def pyStartsWith (s pat : String) : Bool :=
  pat.toList.isPrefixOf s.toList

/-- Python str.lower (ASCII letters; identical to CPython on the
inputs appearing in this development, which contain no cased
non-ASCII characters). -/
def pyLower (s : String) : String :=
  String.mk (s.toList.map Char.toLower)

/-- Python str.strip (whitespace at both ends). -/
def pyTrim (s : String) : String :=
  String.mk (((s.toList.dropWhile Char.isWhitespace).reverse.dropWhile
    Char.isWhitespace).reverse)

/-- Split a character list at every occurrence of sep
(semantics of Python str.split with a one-character separator). -/
def splitChar (sep : Char) : List Char → List (List Char)
  | [] => [[]]
  | c :: rest =>
    let r := splitChar sep rest
    if c = sep then
      [] :: r
    else
      match r with
      | [] => [[c]]
      | hd :: tl => (c :: hd) :: tl

/-- Python s.split(sep) for a one-character separator, on Strings. -/
def pySplitChar (sep : Char) (s : String) : List String :=
  (splitChar sep s.toList).map String.mk

/-- Python l[-n:] : the last n elements (the whole list when it is
shorter than n). -/
def lastN (n : Nat) (l : List α) : List α :=
  l.drop (l.length - n)

/-- Python str(e)[:100]-style character truncation. -/
def takeChars (n : Nat) (s : String) : String :=
  String.mk (s.toList.take n)

/- ================= Message data model ================= -/

/-- A tool call carried by an assistant message
({id, name, args}; args are irrelevant to every claim and omitted). -/
structure ToolCall where
  id : String
  name : String
deriving DecidableEq, Repr

/-- The tagged message union used by the orchestrator
(System / Human / AI / Tool, as in langchain_core.messages). -/
inductive Msg where
  | system (content : String)
  | human (content : String)
  | ai (content : String) (tool_calls : List ToolCall)
  | tool (content : String) (tool_call_id : String) (name : String)
deriving DecidableEq, Repr

/-- isinstance(m, SystemMessage). -/
def Msg.isSystem : Msg → Bool
  | .system _ => true
  | _ => false

/-- isinstance(m, ToolMessage). -/
def Msg.isToolMsg : Msg → Bool
  | .tool _ _ _ => true
  | _ => false

/-- isinstance(m, AIMessage). -/
def Msg.isAi : Msg → Bool
  | .ai _ _ => true
  | _ => false

/-- getattr(msg, "content", ""). -/
def Msg.contentOf : Msg → String
  | .system c => c
  | .human c => c
  | .ai c _ => c
  | .tool c _ _ => c

/-- getattr(msg, "name", ""): only Tool messages carry a name in the
logs this system builds. -/
def Msg.nameOf : Msg → String
  | .tool _ _ n => n
  | _ => ""

/-- msg.tool_calls for an assistant message ([] otherwise). -/
def Msg.callsOf : Msg → List ToolCall
  | .ai _ tc => tc
  | _ => []

/-- getattr(msg, "tool_call_id", None), defaulted to "". -/
def Msg.toolIdOf : Msg → String
  | .tool _ i _ => i
  | _ => ""

/- ================= Tool registry and risk model ================= -/

/-- The metadata attribute of a LangChain tool: None, some non-dict
value, or a dict of string keys and values (tools/__init__.py
inspects it with isinstance(tool.metadata, dict)). -/
inductive MetaVal where
  | pynone
  | nondict
  | dict (entries : List (String × String))
deriving DecidableEq, Repr

/-- A registered tool as the safety layer sees it: a unique name plus
the metadata bag that carries the risk level. -/
structure ToolDef where
  name : String
  metadata : MetaVal
deriving DecidableEq, Repr

/-- Python dict.get(key) on the metadata entries: first binding wins
(keys are unique in every dict the source builds). -/
def dictFind (entries : List (String × String)) (key : String) : Option String :=
  (entries.find? (fun kv => kv.fst = key)).map (fun kv => kv.snd)

/-- tools/__init__.py get_tool_risk_level: the risk_level metadata
entry when metadata is a dict containing it, and "safe" in every
other case. -/
def get_tool_risk_level (t : ToolDef) : String :=
  match t.metadata with
  | .dict entries =>
    match dictFind entries "risk_level" with
    | some v => v
    | none => "safe"
  | _ => "safe"

/-- tools/__init__.py NATIVE_TOOLS: the ten registered native tools
with the risk_level metadata set in their defining modules. -/
def NATIVE_TOOLS : List ToolDef :=
  [ { name := "switch_role", metadata := .dict [("risk_level", "safe")] },
    { name := "system_control", metadata := .dict [("risk_level", "safe")] },
    { name := "memory_operation", metadata := .dict [("risk_level", "safe")] },
    { name := "knowledge_query", metadata := .dict [("risk_level", "safe")] },
    { name := "vision_analyze", metadata := .dict [("risk_level", "safe")] },
    { name := "file_operation", metadata := .dict [("risk_level", "dangerous")] },
    { name := "shell_execute", metadata := .dict [("risk_level", "dangerous")] },
    { name := "python_interpreter", metadata := .dict [("risk_level", "dangerous")] },
    { name := "browser_navigate", metadata := .dict [("risk_level", "dangerous")] },
    { name := "knowledge_ingest", metadata := .dict [("risk_level", "dangerous")] } ]

/-- builder.py _build_tool_registry followed by dict .get(name):
the registry dict is built by a comprehension, so a later tool with
the same name overwrites an earlier one. -/
def registryGet (reg : List ToolDef) (name : String) : Option ToolDef :=
  reg.foldl (fun acc t => if t.name = name then some t else acc) none

/-- builder.py get_tool_by_name over the cached registry. -/
def get_tool_by_name (name : String) : Option ToolDef :=
  registryGet NATIVE_TOOLS name

/-- builder.py check_tool_calls_safety, generic in the registry the
lookups run against: walks the calls, collecting the names of calls
whose tool is unknown or whose risk level is "dangerous", and
returns (that list is empty, that list). -/
def check_tool_calls_safety_reg (reg : List ToolDef) :
    List ToolCall → Bool × List String
  | [] => (true, [])
  | call :: rest =>
    let r := check_tool_calls_safety_reg reg rest
    match registryGet reg call.name with
    | none => (false, call.name :: r.snd)
    | some t =>
      if get_tool_risk_level t = "dangerous" then
        (false, call.name :: r.snd)
      else
        (r.fst, r.snd)

/-- builder.py check_tool_calls_safety against the program registry. -/
def check_tool_calls_safety (calls : List ToolCall) : Bool × List String :=
  check_tool_calls_safety_reg NATIVE_TOOLS calls

/-- Spec-side predicate: the call names a registered tool whose risk
level is not "dangerous". -/
def callIsSafe (reg : List ToolDef) (call : ToolCall) : Prop :=
  ∃ t, registryGet reg call.name = some t ∧ get_tool_risk_level t ≠ "dangerous"

instance (reg : List ToolDef) (call : ToolCall) : Decidable (callIsSafe reg call) := by
  unfold callIsSafe
  cases registryGet reg call.name with
  | none => exact .isFalse (by simp)
  | some t =>
    by_cases h : get_tool_risk_level t = "dangerous"
    · exact .isFalse (by simp [h])
    · exact .isTrue ⟨t, rfl, h⟩

/-- Spec-side boolean form of the same predicate. -/
def callIsSafeB (reg : List ToolDef) (call : ToolCall) : Bool :=
  match registryGet reg call.name with
  | none => false
  | some t => get_tool_risk_level t ≠ "dangerous"

/- ================= Driver safety layer (main.py) ================= -/

/-- The decision the driver takes at an interrupt before the tools
node (main.py run_graph_with_safety, lines 261-304): auto-resume
when the batch is all-safe and auto-approval is on, otherwise ask
the host for confirmation. -/
inductive SafetyDecision where
  | autoResume
  | askConfirm (dangerous : List String)
deriving DecidableEq, Repr

/-- The branch of run_graph_with_safety that consumes the result of
check_tool_calls_safety. -/
def safetyBranch (autoApproveSafe : Bool) (reg : List ToolDef)
    (calls : List ToolCall) : SafetyDecision :=
  let r := check_tool_calls_safety_reg reg calls
  if r.fst && autoApproveSafe then .autoResume else .askConfirm r.snd

/-- main.py voice_confirm_dangerous_tools, reduced to its decision on
the recognised host response: an empty response is rejected, and
otherwise the call is approved exactly when the lowercased response
contains one of the fixed confirmation keywords as a substring.
There is no rejecting keyword set in the source. -/
def voiceConfirmApproves (response : String) : Bool :=
  if response = "" then false
  else
    ["确认", "是", "执行", "好", "可以", "同意", "yes", "ok"].any
      (fun kw => strContains (pyLower response) kw)

/-- main.py create_rejection_messages: one Tool message per denied
call, carrying that call id and name. -/
def create_rejection_messages (tool_calls : List ToolCall) : List Msg :=
  tool_calls.map (fun tc =>
    Msg.tool ("工具调用被用户拒绝。用户不允许执行 \x27" ++ tc.name ++ "\x27 操作。")
      tc.id tc.name)

/- ============ Provider message sanitiser (builder.py 227-304) ============ -/

/-- The inner while loop of _sanitize_messages_for_gemini that walks
forward from an assistant message with tool calls: it consumes the
maximal run of Tool messages whose tool_call_id lies in the id set
of the calls, stopping at the first other message. -/
def matchedToolRun (ids : List String) : List Msg → List Msg
  | .tool c i n :: rest =>
    if i ∈ ids then .tool c i n :: matchedToolRun ids rest else []
  | _ => []

/-- Python set equality on the two id collections (found_ids ==
tool_call_ids compares sets, so order and multiplicity are ignored). -/
def eqAsSets (a b : List String) : Bool :=
  a.all (fun x => b.contains x) && b.all (fun x => a.contains x)

/-- The main walk of _sanitize_messages_for_gemini. At an assistant
message whose tool_calls list is non-empty it collects the matching
Tool run; when the found id set equals the call id set (and is
non-empty) the assistant message and the run are kept, otherwise the
assistant message survives only as a text-only copy when its content
is non-empty, the partial run is dropped, and the walk resumes after
the run. Any other message is kept unchanged. -/
def sanitizeCore : List Msg → List Msg
  | [] => []
  | .ai c calls :: rest =>
    if calls = [] then
      .ai c calls :: sanitizeCore rest
    else
      let ids := calls.map ToolCall.id
      let matched := matchedToolRun ids rest
      let foundIds := matched.map Msg.toolIdOf
      if eqAsSets foundIds ids && !foundIds.isEmpty then
        .ai c calls :: matched ++ sanitizeCore (rest.drop matched.length)
      else
        (if c = "" then [] else [Msg.ai c []]) ++
          sanitizeCore (rest.drop matched.length)
  | m :: rest => m :: sanitizeCore rest
termination_by l => l.length
decreasing_by
  all_goals simp [List.length_drop]
  all_goals omega

/-- The final cleanup of _sanitize_messages_for_gemini: pop every
trailing Tool message. -/
def dropTrailingTools (l : List Msg) : List Msg :=
  (l.reverse.dropWhile Msg.isToolMsg).reverse

/-- builder.py _sanitize_messages_for_gemini. -/
def sanitize_messages_for_gemini (messages : List Msg) : List Msg :=
  dropTrailingTools (sanitizeCore messages)

/- ============ Chatbot message preparation (builder.py 307-378) ============ -/

/-- The message-preparation pipeline of chatbot_node before the LLM
call: strip System messages, truncate to the last MAX_HISTORY_MESSAGES
entries when the filtered log is longer, run the Gemini sanitiser only
when the active role is vision or smart or the bound model name
contains "gemini" (geminiModel abstracts that model-name test), and
prepend the freshly generated system prompt. -/
def prepMessages (role : String) (geminiModel : Bool) (maxHistory : Nat)
    (systemPrompt : String) (messages : List Msg) : List Msg :=
  let filtered := messages.filter (fun m => !m.isSystem)
  let truncated :=
    if maxHistory < filtered.length then lastN maxHistory filtered else filtered
  let final :=
    if role = "vision" || role = "smart" || geminiModel then
      sanitize_messages_for_gemini truncated
    else truncated
  Msg.system systemPrompt :: final

/-- The result handling of chatbot_node around llm_with_tools.ainvoke
(builder.py 362-378): the LLM call is modelled as an Except value; an
exception becomes a single assistant message built from the first 100
characters of the error text, an empty response (no content, no tool
calls) becomes a single apologetic assistant message, and any other
response is returned unchanged. -/
def chatbotRespond (r : Except String (String × List ToolCall)) : Msg :=
  match r with
  | .error e => .ai ("抱歉，AI 模型调用失败：" ++ takeChars 100 e) []
  | .ok (c, tc) =>
    if c = "" && tc.isEmpty then
      .ai "抱歉，我没有收到有效的响应。请重试或检查网络连接。" []
    else
      .ai c tc

/-- chatbot_node always returns exactly the one-message delta
[response] to the reducer. -/
def chatbotDelta (r : Except String (String × List ToolCall)) : List Msg :=
  [chatbotRespond r]

/- ============ Role switching (tools/native_role.py, builder.py 189-224) ============ -/

/-- tools/native_role.py ROLE_SWITCH_MARKER. -/
def ROLE_SWITCH_MARKER : String := "__JARVIS_SWITCH_ROLE__"

/-- tools/native_role.py ROLE_ALIASES. -/
def ROLE_ALIASES : List (String × String) :=
  [ ("default", "default"), ("默认", "default"), ("普通", "default"),
    ("normal", "default"),
    ("smart", "smart"), ("高智商", "smart"), ("聪明", "smart"),
    ("gpt4", "smart"), ("gpt-4", "smart"), ("gpt-4o", "smart"),
    ("coder", "coder"), ("编程", "coder"), ("代码", "coder"),
    ("deepseek", "coder"), ("程序员", "coder"),
    ("fast", "fast"), ("快速", "fast"), ("llama", "fast"),
    ("ollama", "fast"),
    ("vision", "vision"), ("视觉", "vision"), ("gemini", "vision"),
    ("图像", "vision"), ("看图", "vision"), ("图片", "vision") ]

/-- tools/native_role.py resolve_role_alias: strip, lowercase, then
look the alias up, defaulting to the normalised input itself. -/
def resolve_role_alias (roleInput : String) : String :=
  let n := pyLower (pyTrim roleInput)
  ((ROLE_ALIASES.find? (fun kv => kv.fst = n)).map (fun kv => kv.snd)).getD n

/-- LLMFactory.get_available_roles(): the keys of Config.LLM_ROLES
(config.py lines 119-160). -/
def availableRoles : List String :=
  ["default", "smart", "coder", "fast", "vision"]

/-- tools/native_role.py switch_role. The human-readable description
appended by get_role_description depends on environment variables
(provider and model names); it is abstracted as the descTail argument,
which no claim inspects. An invalid role yields the fixed refusal text
and no marker line; a valid role yields the marker line followed by
the confirmation text. -/
def switch_role (descTail : String → String) (role : String) : String :=
  let c := resolve_role_alias role
  if availableRoles.contains c then
    ROLE_SWITCH_MARKER ++ ":" ++ c ++ "\n已切换到 " ++ c ++ " 模式。\n" ++ descTail c
  else
    "无法识别的角色: " ++ role ++ "\n可用角色: " ++
      String.intercalate ", " availableRoles ++ "\n请使用正确的角色名称。"

/-- The inner line loop of state_updater_node (builder.py 215-220):
the first line that starts with the marker and whose extracted role
(line.split(":")[1].strip()) is non-empty and differs from the current
role wins. When a marker line contains no colon CPython would raise
IndexError on [1]; that unreachable branch is modelled as extracting
the empty string, which the guard then skips. -/
def scanMarkerLines (cur : String) : List String → Option String
  | [] => none
  | l :: rest =>
    if pyStartsWith l ROLE_SWITCH_MARKER then
      let r := pyTrim ((pySplitChar ':' l).getD 1 "")
      if r ≠ "" ∧ r ≠ cur then some r else scanMarkerLines cur rest
    else scanMarkerLines cur rest

/-- The outer message loop of state_updater_node (builder.py 208-221),
walking the already reversed window: the first message named
switch_role whose content contains the marker is scanned for a role,
and the loop then stops (the break) whatever the inner scan found. -/
def scanRecentForSwitch (cur : String) : List Msg → Option String
  | [] => none
  | m :: rest =>
    if m.nameOf = "switch_role" then
      if strContains m.contentOf ROLE_SWITCH_MARKER then
        scanMarkerLines cur (pySplitChar '\n' m.contentOf)
      else scanRecentForSwitch cur rest
    else scanRecentForSwitch cur rest

/-- builder.py state_updater_node: scan the last five messages, newest
first, and return the new role to store ({"current_role": r}) or none
for the empty delta. No enum validation is performed here. -/
def state_updater_node (messages : List Msg) (current_role : String) :
    Option String :=
  scanRecentForSwitch current_role (lastN 5 messages).reverse

/- ============ Graph engine and rejection resume (main.py 289-304) ============ -/

/-- The three nodes of the compiled graph (builder.py create_graph). -/
inductive GNode where
  | chatbot
  | tools
  | state_updater
deriving DecidableEq, Repr

/-- Observable engine events: an LLM invocation inside chatbot, or a
tool invoke performed by the tools node. -/
inductive EngineEvent where
  | llmInvoked
  | toolInvoked (name : String)
deriving DecidableEq, Repr

/-- The engine state a checkpoint stores: the message log, the active
role, and the list of nodes to execute next ([] means terminal). -/
structure EngineState where
  messages : List Msg
  current_role : String
  next : List GNode
deriving DecidableEq, Repr

/-- The opaque collaborators of the engine: the bound chat model (an
Except models the exception path), the tool invoke functions, the
model-name test of the Gemini branch, MAX_HISTORY_MESSAGES, and the
system-prompt generator. -/
structure EngineEnv where
  oracle : List Msg → String → Except String (String × List ToolCall)
  invoker : ToolCall → String
  geminiModel : Bool
  maxHistory : Nat
  sysPromptOf : String → String

/-- The tool calls of the last message of the log (what tools_condition
and ToolNode both read). -/
def lastAiCalls (msgs : List Msg) : List ToolCall :=
  match msgs.getLast? with
  | some m => m.callsOf
  | none => []

/-- One node execution: chatbot prepares messages, calls the model and
appends its single response (routing to tools exactly when that
response carries tool calls, per tools_condition); tools invokes every
call of the last assistant message in order, emitting one Tool message
per call; state_updater applies the role-switch scan. Edges follow
create_graph: tools to state_updater to chatbot. -/
def stepNode (env : EngineEnv) (n : GNode) (st : EngineState) :
    EngineState × List EngineEvent :=
  match n with
  | .chatbot =>
    let msgsToSend := prepMessages st.current_role env.geminiModel
      env.maxHistory (env.sysPromptOf st.current_role) st.messages
    let m := chatbotRespond (env.oracle msgsToSend st.current_role)
    let nxt := if m.callsOf = [] then [] else [GNode.tools]
    ({ st with messages := st.messages ++ [m], next := nxt }, [.llmInvoked])
  | .tools =>
    let calls := lastAiCalls st.messages
    let results := calls.map (fun c => Msg.tool (env.invoker c) c.id c.name)
    ({ st with messages := st.messages ++ results, next := [.state_updater] },
      calls.map (fun c => .toolInvoked c.name))
  | .state_updater =>
    let upd := state_updater_node st.messages st.current_role
    ({ st with current_role := upd.getD st.current_role, next := [.chatbot] }, [])

/-- Resumption (graph.astream with input None) from a checkpoint that
is not itself suspended at an interrupt node: execute pending nodes
until the graph is terminal or the engine reaches the tools node,
which is in the interrupt_before set. Fuel bounds the run; every claim
uses enough fuel for the run to finish on its own. -/
def runResume (env : EngineEnv) : Nat → EngineState → EngineState × List EngineEvent
  | 0, st => (st, [])
  | Nat.succ fuel, st =>
    match st.next with
    | [] => (st, [])
    | n :: _ =>
      if n = GNode.tools then (st, [])
      else
        let r := stepNode env n st
        let r2 := runResume env fuel r.fst
        (r2.fst, r.snd ++ r2.snd)

/-- The rejection path of run_graph_with_safety (main.py 289-304):
build the rejection Tool messages from the pending tool calls of the
last assistant message, write them into the graph state as if produced
by the tools node (graph.aupdate_state with as_node="tools", so the
engine next runs the successor of tools, state_updater), and resume. -/
def rejectAndResume (env : EngineEnv) (fuel : Nat) (st : EngineState) :
    EngineState × List EngineEvent :=
  let tcs := lastAiCalls st.messages
  let st2 : EngineState :=
    { st with messages := st.messages ++ create_rejection_messages tcs,
              next := [GNode.state_updater] }
  runResume env fuel st2

/-- The active role after the state_updater execution that follows a
rejection injection (the injected rejection texts never contain the
role-switch marker, but older log entries may). -/
def roleAfterRejection (st : EngineState) : String :=
  (state_updater_node
      (st.messages ++ create_rejection_messages (lastAiCalls st.messages))
      st.current_role).getD st.current_role

/-- The assistant message the chatbot node produces on the resume that
follows a rejection: the LLM is invoked on the log extended with the
rejection messages, under the role the state_updater scan leaves. -/
def rejectionFollowupMsg (env : EngineEnv) (st : EngineState) : Msg :=
  let msgs2 := st.messages ++ create_rejection_messages (lastAiCalls st.messages)
  let role2 := roleAfterRejection st
  chatbotRespond (env.oracle
    (prepMessages role2 env.geminiModel env.maxHistory (env.sysPromptOf role2) msgs2)
    role2)

/- ============ LLM factory (core/llm_provider.py, config.py) ============ -/

/-- A Python configuration value: None, a string, or an int (the
timeout entries); truthiness follows Python. -/
inductive PyVal where
  | pynone
  | str (s : String)
  | intv (n : Nat)
deriving DecidableEq, Repr

/-- Python truthiness of a configuration value. -/
def PyVal.truthy : PyVal → Bool
  | .pynone => false
  | .str s => !s.isEmpty
  | .intv n => n ≠ 0

/-- A role configuration dict. -/
abbrev ConfigDict := List (String × PyVal)

/-- Python config.get(key) (None when absent). -/
def cfgGet (c : ConfigDict) (k : String) : PyVal :=
  match c.find? (fun kv => kv.fst = k) with
  | some kv => kv.snd
  | none => .pynone

/-- Python config.get(key, default). -/
def cfgGetD (c : ConfigDict) (k : String) (d : PyVal) : PyVal :=
  match c.find? (fun kv => kv.fst = k) with
  | some kv => kv.snd
  | none => d

/-- Config.LLM_ROLES as a role-name keyed dict. -/
abbrev RolesConfig := List (String × ConfigDict)

/-- Python roles.get(role) on the roles dict. -/
def rolesFind (roles : RolesConfig) (r : String) : Option ConfigDict :=
  (roles.find? (fun kv => kv.fst = r)).map (fun kv => kv.snd)

/-- llm_provider.py LLMFactory._get_role_config: a role missing from
LLM_ROLES falls back to "default"; a config that is empty or has no
truthy provider entry is replaced by the default role entry (or the
empty dict when even that is missing). -/
def LLMFactory_get_role_config (roles : RolesConfig) (role : String) : ConfigDict :=
  let role2 := if (rolesFind roles role).isSome then role else "default"
  let config := (rolesFind roles role2).getD []
  if config.isEmpty || !(cfgGet config "provider").truthy then
    (rolesFind roles "default").getD []
  else config

/-- llm_provider.py LLMFactory._resolve_provider: ollama without a
host and gemini without an api_key both fall back to the string
"openai"; any provider value other than ollama or gemini resolves to
"openai". -/
def LLMFactory_resolve_provider (c : ConfigDict) : String :=
  let p := cfgGetD c "provider" (.str "openai")
  if p = .str "ollama" then
    if (cfgGet c "host").truthy then "ollama" else "openai"
  else if p = .str "gemini" then
    if (cfgGet c "api_key").truthy then "gemini" else "openai"
  else "openai"

/-- The observable arguments of the chat-model constructor the factory
calls (ChatOpenAI / ChatOllama / ChatGoogleGenerativeAI). -/
structure ModelSpec where
  provider : String
  model : PyVal
  api_key : PyVal
  base_url : PyVal
deriving DecidableEq, Repr

/-- llm_provider.py LLMFactory.create: role config, provider
resolution, then one of the three constructors with that same config;
the final else branch raises ValueError ("Unsupported provider") and
is the only failure path of the function. -/
def LLMFactory_create (roles : RolesConfig) (role : String) :
    Except String ModelSpec :=
  let config := LLMFactory_get_role_config roles role
  let provider := LLMFactory_resolve_provider config
  if provider = "openai" then
    .ok { provider := "openai",
          model := cfgGetD config "model" (.str "gpt-3.5-turbo"),
          api_key := cfgGet config "api_key",
          base_url := cfgGet config "base_url" }
  else if provider = "ollama" then
    .ok { provider := "ollama",
          model := cfgGetD config "model" (.str "llama3:8b"),
          api_key := .pynone,
          base_url := cfgGetD config "host" (.str "http://localhost:11434") }
  else if provider = "gemini" then
    .ok { provider := "gemini",
          model := cfgGetD config "model" (.str "gemini-1.5-flash"),
          api_key := cfgGet config "api_key",
          base_url := .pynone }
  else
    .error ("Unsupported provider: " ++ provider)

/-- Python os.getenv(name) under an abstract environment. -/
def getenv (env : String → Option String) (k : String) : PyVal :=
  match env k with
  | some s => .str s
  | none => .pynone

/-- Python os.getenv(name, default). -/
def getenvD (env : String → Option String) (k d : String) : PyVal :=
  match env k with
  | some s => .str s
  | none => .str d

/-- Python x or y on configuration values. -/
def pyOr (a b : PyVal) : PyVal :=
  if a.truthy then a else b

/-- config.py Config.LLM_ROLES (lines 119-160), as a function of the
process environment. -/
def Config_LLM_ROLES (env : String → Option String) : RolesConfig :=
  [ ("default",
      [ ("provider", .str "openai"),
        ("api_key", getenv env "DEFAULT_LLM_API_KEY"),
        ("base_url", getenvD env "DEFAULT_LLM_BASE_URL" "https://api.openai.com/v1"),
        ("model", getenvD env "DEFAULT_LLM_MODEL" "gpt-3.5-turbo"),
        ("timeout", .intv 60) ]),
    ("smart",
      [ ("provider", .str "openai"),
        ("api_key", pyOr (getenv env "SMART_LLM_API_KEY") (getenv env "DEFAULT_LLM_API_KEY")),
        ("base_url", pyOr (getenv env "SMART_LLM_BASE_URL") (getenv env "DEFAULT_LLM_BASE_URL")),
        ("model", getenvD env "SMART_LLM_MODEL" "gpt-4o"),
        ("timeout", .intv 120) ]),
    ("coder",
      [ ("provider", getenvD env "CODER_LLM_PROVIDER" "ollama"),
        ("model", getenvD env "CODER_LLM_MODEL" "deepseek-coder:6.7b"),
        ("host", getenvD env "OLLAMA_HOST" "http://localhost:11434"),
        ("timeout", .intv 180),
        ("api_key", pyOr (getenv env "CODER_LLM_API_KEY") (getenv env "DEFAULT_LLM_API_KEY")),
        ("base_url", pyOr (getenv env "CODER_LLM_BASE_URL") (getenv env "DEFAULT_LLM_BASE_URL")) ]),
    ("fast",
      [ ("provider", getenvD env "FAST_LLM_PROVIDER" "ollama"),
        ("model", getenvD env "FAST_LLM_MODEL" "llama3:8b"),
        ("host", getenvD env "OLLAMA_HOST" "http://localhost:11434"),
        ("timeout", .intv 60),
        ("api_key", pyOr (getenv env "FAST_LLM_API_KEY") (getenv env "DEFAULT_LLM_API_KEY")),
        ("base_url", pyOr (getenv env "FAST_LLM_BASE_URL") (getenv env "DEFAULT_LLM_BASE_URL")) ]),
    ("vision",
      [ ("provider", getenvD env "VISION_LLM_PROVIDER" "gemini"),
        ("api_key", pyOr (getenv env "VISION_LLM_API_KEY") (getenv env "GEMINI_API_KEY")),
        ("model", getenvD env "VISION_LLM_MODEL" "gemini-1.5-flash"),
        ("timeout", .intv 60),
        ("base_url", getenv env "VISION_LLM_BASE_URL") ]) ]

/-- The empty process environment: no credential or override variable
is set (the scenario in which the default role is unusable for lack of
credentials). -/
def envEmpty : String → Option String := fun _ => none

/- ================= Concrete fixtures for counterexamples ================= -/

/-- An engine environment whose model, after seeing a rejection,
answers with a new tool call (a retry with shell_execute): the LLM is
an external collaborator and nothing in the code prevents this. -/
def env0 : EngineEnv :=
  { oracle := fun _ _ => .ok ("再试一次", [{ id := "c2", name := "shell_execute" }]),
    invoker := fun _ => "ok",
    geminiModel := false,
    maxHistory := 30,
    sysPromptOf := fun _ => "sys" }

/-- A checkpoint suspended before tools with one pending dangerous
file_operation call. -/
def st0 : EngineState :=
  { messages := [ .human "清空 tmp 目录",
                  .ai "" [{ id := "c1", name := "file_operation" }] ],
    current_role := "default",
    next := [.tools] }

/-- A 31-message log whose first entry is an assistant message with a
tool call and whose second entry is the matching tool response;
truncation to the last 30 entries makes that response an orphan
leading Tool message. -/
def msgs31 : List Msg :=
  Msg.ai "删除完成" [{ id := "1", name := "file_operation" }] ::
    Msg.tool "done" "1" "file_operation" ::
    List.replicate 29 (Msg.human "hi")

/- ================= Helper lemmas ================= -/

theorem string_toList_append (s t : String) :
    (s ++ t).toList = s.toList ++ t.toList := rfl

theorem string_mk_toList (s : String) : String.mk s.toList = s := by
  cases s
  rfl

theorem string_append_ne_empty (s t : String) (h : s ≠ "") : s ++ t ≠ "" := by
  intro hEq
  apply h
  have hd : s.toList ++ t.toList = [] := by
    have := congrArg String.toList hEq
    rw [string_toList_append] at this
    exact this
  have hs : s.toList = [] := (List.append_eq_nil.mp hd).1
  have := congrArg String.mk hs
  rwa [string_mk_toList] at this

theorem isPrefixOf_self_append (l t : List Char) :
    l.isPrefixOf (l ++ t) = true := by
  induction l with
  | nil => simp [List.isPrefixOf]
  | cons a as ih => simp [List.isPrefixOf, ih]

theorem isPrefixOf_cons_ne (a b : Char) (l t : List Char) (h : a ≠ b) :
    (a :: l).isPrefixOf (b :: t) = false := by
  simp [List.isPrefixOf, h]

theorem strContains_of_startsWith (s pat : String)
    (h : pyStartsWith s pat = true) : strContains s pat = true := by
  unfold strContains
  rw [List.any_eq_true]
  exact ⟨s.toList, (List.mem_tails _ _).mpr (List.suffix_refl _), h⟩

theorem splitChar_no_sep (sep : Char) (l : List Char) (h : sep ∉ l) :
    splitChar sep l = [l] := by
  induction l with
  | nil => rfl
  | cons c rest ih =>
    have hc : c ≠ sep := fun hEq => h (hEq ▸ List.mem_cons_self c rest)
    have hr : sep ∉ rest := fun hm => h (List.mem_cons_of_mem c hm)
    simp [splitChar, hc, ih hr]

theorem splitChar_append_sep (sep : Char) (l1 l2 : List Char) (h : sep ∉ l1) :
    splitChar sep (l1 ++ sep :: l2) = l1 :: splitChar sep l2 := by
  induction l1 with
  | nil => simp [splitChar]
  | cons c cs ih =>
    have hc : c ≠ sep := fun hEq => h (hEq ▸ List.mem_cons_self c cs)
    have hr : sep ∉ cs := fun hm => h (List.mem_cons_of_mem c hm)
    simp [splitChar, hc, ih hr]

theorem head_dropWhile {α : Type} (p : α → Bool) (l : List α) (a : α)
    (h : (l.dropWhile p).head? = some a) : p a = false := by
  induction l with
  | nil => simp [List.dropWhile] at h
  | cons x xs ih =>
    cases hp : p x
    · rw [List.dropWhile, hp] at h
      simp at h
      rw [← h]
      exact hp
    · rw [List.dropWhile, hp] at h
      exact ih h

theorem sanitize_no_trailing_tool (l : List Msg) (m : Msg)
    (h : (sanitize_messages_for_gemini l).getLast? = some m) :
    m.isToolMsg = false := by
  unfold sanitize_messages_for_gemini dropTrailingTools at h
  rw [List.getLast?_reverse] at h
  exact head_dropWhile Msg.isToolMsg _ m h

theorem matchedToolRun_nil_of_head (ids : List String) (rest : List Msg)
    (h : ∀ c i n, rest.head? = some (Msg.tool c i n) → i ∉ ids) :
    matchedToolRun ids rest = [] := by
  cases rest with
  | nil => rfl
  | cons m ms =>
    cases m with
    | tool c i n =>
      have hi := h c i n rfl
      simp [matchedToolRun, hi]
    | system c => rfl
    | human c => rfl
    | ai c tc => rfl

theorem matchedToolRun_append (ids : List String) (resps rest : List Msg)
    (hresp : ∀ m ∈ resps, ∃ c i n, m = Msg.tool c i n ∧ i ∈ ids)
    (hhead : ∀ c i n, rest.head? = some (Msg.tool c i n) → i ∉ ids) :
    matchedToolRun ids (resps ++ rest) = resps := by
  induction resps with
  | nil => simpa using matchedToolRun_nil_of_head ids rest hhead
  | cons m ms ih =>
    obtain ⟨c, i, n, hm, hi⟩ := hresp m (List.mem_cons_self m ms)
    subst hm
    simp [matchedToolRun, hi,
      ih (fun m2 hm2 => hresp m2 (List.mem_cons_of_mem _ hm2))]

theorem sanitizeCore_complete (c : String) (calls : List ToolCall)
    (resps rest : List Msg)
    (hcalls : calls ≠ [])
    (hresp : ∀ m ∈ resps, ∃ cc i n, m = Msg.tool cc i n ∧ i ∈ calls.map ToolCall.id)
    (hsets : eqAsSets (resps.map Msg.toolIdOf) (calls.map ToolCall.id) = true)
    (hne : resps ≠ [])
    (hhead : ∀ cc i n, rest.head? = some (Msg.tool cc i n) →
      i ∉ calls.map ToolCall.id) :
    sanitizeCore (Msg.ai c calls :: (resps ++ rest)) =
      Msg.ai c calls :: (resps ++ sanitizeCore rest) := by
  have hm : matchedToolRun (calls.map ToolCall.id) (resps ++ rest) = resps :=
    matchedToolRun_append _ _ _ hresp hhead
  have hie : (resps.map Msg.toolIdOf).isEmpty = false := by
    cases resps with
    | nil => exact absurd rfl hne
    | cons x xs => rfl
  rw [sanitizeCore, if_neg hcalls]
  simp only [hm, hsets, hie]
  simp [List.drop_left]

theorem sanitizeCore_incomplete (c : String) (calls : List ToolCall)
    (resps rest : List Msg)
    (hcalls : calls ≠ [])
    (hresp : ∀ m ∈ resps, ∃ cc i n, m = Msg.tool cc i n ∧ i ∈ calls.map ToolCall.id)
    (hsets : eqAsSets (resps.map Msg.toolIdOf) (calls.map ToolCall.id) = false)
    (hhead : ∀ cc i n, rest.head? = some (Msg.tool cc i n) →
      i ∉ calls.map ToolCall.id) :
    sanitizeCore (Msg.ai c calls :: (resps ++ rest)) =
      (if c = "" then [] else [Msg.ai c []]) ++ sanitizeCore rest := by
  have hm : matchedToolRun (calls.map ToolCall.id) (resps ++ rest) = resps :=
    matchedToolRun_append _ _ _ hresp hhead
  rw [sanitizeCore, if_neg hcalls]
  simp only [hm, hsets]
  simp [List.drop_left]

theorem callIsSafeB_iff (reg : List ToolDef) (c : ToolCall) :
    callIsSafeB reg c = true ↔
      ∃ t, registryGet reg c.name = some t ∧
        get_tool_risk_level t ≠ "dangerous" := by
  unfold callIsSafeB
  cases h : registryGet reg c.name with
  | none => simp
  | some t => simp [h]

theorem check_safety_spec (reg : List ToolDef) (calls : List ToolCall) :
    ((check_tool_calls_safety_reg reg calls).fst = true ↔
      ∀ c ∈ calls, callIsSafeB reg c = true)
  ∧ (check_tool_calls_safety_reg reg calls).snd =
      (calls.filter (fun c => !callIsSafeB reg c)).map ToolCall.name := by
  induction calls with
  | nil => simp [check_tool_calls_safety_reg]
  | cons call rest ih =>
    obtain ⟨ih1, ih2⟩ := ih
    cases hreg : registryGet reg call.name with
    | none =>
      have hb : callIsSafeB reg call = false := by simp [callIsSafeB, hreg]
      have hc : check_tool_calls_safety_reg reg (call :: rest) =
          (false, call.name :: (check_tool_calls_safety_reg reg rest).snd) := by
        rw [check_tool_calls_safety_reg]
        simp [hreg]
      refine ⟨?_, ?_⟩
      · rw [hc]
        constructor
        · intro h; exact absurd h (by simp)
        · intro hall
          have h2 := hall call (List.mem_cons_self _ _)
          rw [hb] at h2
          exact absurd h2 (by simp)
      · rw [hc]
        simp [List.filter_cons, hb, ih2]
    | some t =>
      by_cases hd : get_tool_risk_level t = "dangerous"
      · have hb : callIsSafeB reg call = false := by
          simp [callIsSafeB, hreg, hd]
        have hc : check_tool_calls_safety_reg reg (call :: rest) =
            (false, call.name :: (check_tool_calls_safety_reg reg rest).snd) := by
          rw [check_tool_calls_safety_reg]
          simp [hreg, hd]
        refine ⟨?_, ?_⟩
        · rw [hc]
          constructor
          · intro h; exact absurd h (by simp)
          · intro hall
            have h2 := hall call (List.mem_cons_self _ _)
            rw [hb] at h2
            exact absurd h2 (by simp)
        · rw [hc]
          simp [List.filter_cons, hb, ih2]
      · have hb : callIsSafeB reg call = true := by
          simp [callIsSafeB, hreg, hd]
        have hc : check_tool_calls_safety_reg reg (call :: rest) =
            check_tool_calls_safety_reg reg rest := by
          rw [check_tool_calls_safety_reg]
          simp [hreg, hd]
        refine ⟨?_, ?_⟩
        · rw [hc]
          rw [ih1]
          simp [List.forall_mem_cons, hb]
        · rw [hc]
          simp [List.filter_cons, hb, ih2]

theorem chatbotRespond_isAi (r : Except String (String × List ToolCall)) :
    (chatbotRespond r).isAi = true := by
  rcases r with e | ⟨c, tc⟩
  · rfl
  · simp only [chatbotRespond]
    split <;> rfl

theorem rejectAndResume_eq (env : EngineEnv) (st : EngineState) :
    rejectAndResume env 3 st =
      ({ messages := st.messages ++
            create_rejection_messages (lastAiCalls st.messages) ++
            [rejectionFollowupMsg env st],
         current_role := roleAfterRejection st,
         next := if (rejectionFollowupMsg env st).callsOf = [] then []
                 else [GNode.tools] },
       [EngineEvent.llmInvoked]) := by
  unfold rejectAndResume rejectionFollowupMsg roleAfterRejection
  simp only [runResume, stepNode]
  by_cases hm :
      (chatbotRespond (env.oracle
        (prepMessages
          ((state_updater_node
              (st.messages ++ create_rejection_messages (lastAiCalls st.messages))
              st.current_role).getD st.current_role)
          env.geminiModel env.maxHistory
          (env.sysPromptOf
            ((state_updater_node
                (st.messages ++ create_rejection_messages (lastAiCalls st.messages))
                st.current_role).getD st.current_role))
          (st.messages ++ create_rejection_messages (lastAiCalls st.messages)))
        ((state_updater_node
            (st.messages ++ create_rejection_messages (lastAiCalls st.messages))
            st.current_role).getD st.current_role))).callsOf = [] <;>
    simp [hm, runResume, List.append_assoc]

theorem prepMessages_no_sanitize (role : String) (g : Bool) (maxH : Nat)
    (s : String) (msgs : List Msg)
    (h1 : role ≠ "vision") (h2 : role ≠ "smart") (h3 : g = false) :
    prepMessages role g maxH s msgs =
      Msg.system s ::
        (if maxH < (msgs.filter (fun m => !m.isSystem)).length then
          lastN maxH (msgs.filter (fun m => !m.isSystem))
        else msgs.filter (fun m => !m.isSystem)) := by
  unfold prepMessages
  simp [h1, h2, h3]

theorem prepMessages_sanitized_last (role : String) (g : Bool) (maxH : Nat)
    (s : String) (msgs : List Msg)
    (h : role = "vision" ∨ role = "smart" ∨ g = true) :
    ∀ m, (prepMessages role g maxH s msgs).getLast? = some m →
      m.isToolMsg = false := by
  intro m hm
  unfold prepMessages at hm
  have hcond : (role = "vision" || role = "smart" || g) = true := by
    rcases h with h | h | h <;> simp [h]
  simp only [hcond, if_true, eq_self_iff_true] at hm
  cases hs : sanitize_messages_for_gemini
      (if maxH < (msgs.filter (fun m => !m.isSystem)).length then
        lastN maxH (msgs.filter (fun m => !m.isSystem))
      else msgs.filter (fun m => !m.isSystem)) with
  | nil =>
    rw [hs] at hm
    simp at hm
    rw [← hm]
    rfl
  | cons y ys =>
    rw [hs, List.getLast?_cons_cons] at hm
    exact sanitize_no_trailing_tool _ m (by rw [hs]; exact hm)

theorem state_updater_applies_unvalidated (r cur tid : String)
    (hn : '\n' ∉ r.toList)
    (hc : ':' ∉ r.toList)
    (ht : pyTrim r = r)
    (hne : r ≠ "")
    (hcur : r ≠ cur) :
    state_updater_node
      [Msg.tool (ROLE_SWITCH_MARKER ++ ":" ++ r) tid "switch_role"] cur =
      some r := by
  have hcontent : (ROLE_SWITCH_MARKER ++ ":" ++ r).toList =
      ROLE_SWITCH_MARKER.toList ++ (':' :: r.toList) := by
    rw [string_toList_append, string_toList_append, List.append_assoc]
    rfl
  have hstart : pyStartsWith (ROLE_SWITCH_MARKER ++ ":" ++ r)
      ROLE_SWITCH_MARKER = true := by
    unfold pyStartsWith
    rw [hcontent]
    exact isPrefixOf_self_append _ _
  have hnotn : '\n' ∉ (ROLE_SWITCH_MARKER ++ ":" ++ r).toList := by
    rw [hcontent]
    intro hmem
    rcases List.mem_append.mp hmem with hmm | hmm
    · exact absurd hmm (by decide)
    · rcases List.mem_cons.mp hmm with hmm | hmm
      · exact absurd hmm (by decide)
      · exact hn hmm
  have hsplitn : pySplitChar '\n'
      (ROLE_SWITCH_MARKER ++ ":" ++ r) = [ROLE_SWITCH_MARKER ++ ":" ++ r] := by
    unfold pySplitChar
    rw [splitChar_no_sep _ _ hnotn, List.map_cons, List.map_nil,
      string_mk_toList]
  have hsplitc : pySplitChar ':'
      (ROLE_SWITCH_MARKER ++ ":" ++ r) = [ROLE_SWITCH_MARKER, r] := by
    unfold pySplitChar
    rw [hcontent, splitChar_append_sep _ _ _ (by decide),
      splitChar_no_sep _ _ hc, List.map_cons, List.map_cons, List.map_nil,
      string_mk_toList, string_mk_toList]
  have hcont2 : strContains (ROLE_SWITCH_MARKER ++ ":" ++ r)
      ROLE_SWITCH_MARKER = true :=
    strContains_of_startsWith _ _ hstart
  show scanRecentForSwitch cur
      ((lastN 5 [Msg.tool (ROLE_SWITCH_MARKER ++ ":" ++ r) tid "switch_role"]).reverse) =
      some r
  have hwin : (lastN 5
      [Msg.tool (ROLE_SWITCH_MARKER ++ ":" ++ r) tid "switch_role"]).reverse =
      [Msg.tool (ROLE_SWITCH_MARKER ++ ":" ++ r) tid "switch_role"] := rfl
  rw [hwin]
  rw [scanRecentForSwitch]
  simp only [Msg.nameOf, Msg.contentOf, if_pos rfl, hcont2, if_true]
  rw [hsplitn]
  rw [scanMarkerLines]
  simp only [hstart, if_true]
  rw [hsplitc]
  simp [ht, hne, hcur]

theorem forall₂_map_self {α β : Type} (f : α → β) (r : α → β → Prop)
    (l : List α) (h : ∀ a, r a (f a)) : List.Forall₂ r l (l.map f) := by
  induction l with
  | nil => exact .nil
  | cons a as ih => exact .cons (h a) ih

theorem isPrefixOf_ne_head (p l : List Char) (a b : Char)
    (hp : p.head? = some a) (hl : l.head? = some b) (hab : a ≠ b) :
    p.isPrefixOf l = false := by
  cases p with
  | nil => simp at hp
  | cons x xs =>
    cases l with
    | nil => simp at hl
    | cons y ys =>
      simp at hp hl
      subst hp
      subst hl
      simp [List.isPrefixOf, hab]

theorem switch_role_invalid_no_marker (d : String → String) (r : String)
    (h : availableRoles.contains (resolve_role_alias r) = false) :
    pyStartsWith (switch_role d r) ROLE_SWITCH_MARKER = false := by
  unfold switch_role
  simp only [h, Bool.false_eq_true, if_false]
  unfold pyStartsWith
  refine isPrefixOf_ne_head _ _ (Char.ofNat 95) (Char.ofNat 26080) rfl ?_ (by decide)
  rfl

theorem resolve_provider_cases (c : ConfigDict) :
    LLMFactory_resolve_provider c = "openai" ∨
    LLMFactory_resolve_provider c = "ollama" ∨
    LLMFactory_resolve_provider c = "gemini" := by
  unfold LLMFactory_resolve_provider
  by_cases h1 : cfgGetD c "provider" (.str "openai") = .str "ollama"
  · by_cases h2 : (cfgGet c "host").truthy <;> simp [h1, h2]
  · by_cases h3 : cfgGetD c "provider" (.str "openai") = .str "gemini"
    · by_cases h4 : (cfgGet c "api_key").truthy <;> simp [h1, h3, h4]
    · simp [h1, h3]

theorem LLMFactory_create_total (roles : RolesConfig) (role : String) :
    ∃ s, LLMFactory_create roles role = .ok s := by
  rcases resolve_provider_cases (LLMFactory_get_role_config roles role) with
    h | h | h <;>
  · simp only [LLMFactory_create, h]
    simp

/- ================= Claim theorems ================= -/

/-- C1: for every sequence of tool calls, check_tool_calls_safety
reports the batch all-safe iff every call names a registered tool
whose risk level is not "dangerous"; the returned list is exactly the
names of the offending calls (unknown tool or dangerous risk), in call
order. -/
theorem C1_check_tool_calls_safety_correct (calls : List ToolCall) :
    ((check_tool_calls_safety calls).fst = true ↔
      ∀ c ∈ calls, ∃ t, get_tool_by_name c.name = some t ∧
        get_tool_risk_level t ≠ "dangerous")
  ∧ (check_tool_calls_safety calls).snd =
      (calls.filter (fun c => !callIsSafeB NATIVE_TOOLS c)).map ToolCall.name := by
  obtain ⟨h1, h2⟩ := check_safety_spec NATIVE_TOOLS calls
  refine ⟨?_, h2⟩
  rw [check_tool_calls_safety, h1]
  constructor
  · intro hall c hcmem
    exact (callIsSafeB_iff _ _).mp (hall c hcmem)
  · intro hall c hcmem
    exact (callIsSafeB_iff _ _).mpr (hall c hcmem)

/-- C2 (code evaluated at the failing inputs): the voice confirmation
of main.py approves any response containing an approval keyword as a
substring; the explicitly rejecting responses 不同意 (disagree),
不可以 (not allowed) and 不好 (no good) are therefore approved, while
取消 (cancel) and the empty response are rejected — the source has no
rejecting keyword set at all. -/
theorem C2_voice_confirm_approves_rejecting_phrases :
    voiceConfirmApproves "不同意" = true ∧
    voiceConfirmApproves "不可以" = true ∧
    voiceConfirmApproves "不好" = true ∧
    voiceConfirmApproves "取消" = false ∧
    voiceConfirmApproves "" = false := by
  refine ⟨rfl, rfl, rfl, rfl, rfl⟩

/-- C3 counterexample: with a model that answers the rejection with a
fresh shell_execute tool call, the assistant message following the
rejection resume is not text-only — the code places no constraint on
the recovery message of the LLM. -/
theorem C3_cx_next_assistant_not_text_only :
    (rejectAndResume env0 3 st0).fst.messages.getLast? =
      some (Msg.ai "再试一次" [{ id := "c2", name := "shell_execute" }]) ∧
    (Msg.ai "再试一次" [{ id := "c2", name := "shell_execute" }]).callsOf ≠ [] := by
  refine ⟨rfl, by decide⟩

/-- C3 (amended): on rejection the driver synthesises exactly one Tool
message per pending call — each carrying the id, name and the
rejection text — writes them as if produced by the tools node and
resumes; the resumed engine runs state_updater then chatbot, invokes
no tool (the only event is the LLM call), and appends exactly one
assistant message, which is whatever the model returns and need not be
text-only. -/
theorem C3_amended_rejection_mechanics (env : EngineEnv) (st : EngineState) :
    (create_rejection_messages (lastAiCalls st.messages)).length =
        (lastAiCalls st.messages).length
  ∧ List.Forall₂ (fun (tc : ToolCall) (m : Msg) =>
        m = Msg.tool
          ("工具调用被用户拒绝。用户不允许执行 \x27" ++ tc.name ++ "\x27 操作。")
          tc.id tc.name)
      (lastAiCalls st.messages)
      (create_rejection_messages (lastAiCalls st.messages))
  ∧ (rejectAndResume env 3 st).fst.messages =
      st.messages ++ create_rejection_messages (lastAiCalls st.messages) ++
        [rejectionFollowupMsg env st]
  ∧ (rejectionFollowupMsg env st).isAi = true
  ∧ (rejectAndResume env 3 st).snd = [EngineEvent.llmInvoked]
  ∧ ∀ e ∈ (rejectAndResume env 3 st).snd, ∀ n, e ≠ EngineEvent.toolInvoked n := by
  refine ⟨?_, ?_, ?_, ?_, ?_, ?_⟩
  · simp [create_rejection_messages]
  · exact forall₂_map_self _ _ _ (fun a => rfl)
  · rw [rejectAndResume_eq]
  · unfold rejectionFollowupMsg
    exact chatbotRespond_isAi _
  · rw [rejectAndResume_eq]
  · rw [rejectAndResume_eq]
    intro e he n
    simp at he
    subst he
    intro hEq
    cases hEq

/-- C4 counterexample: a complete tool-call/response pair at the very
end of the log is NOT kept together — the trailing cleanup pops the
matching tool responses, contradicting clause (a) of the claim (the
clauses (a) and (c) of the claim cannot both hold on such a log). -/
theorem C4_cx_trailing_complete_pair_dropped :
    sanitize_messages_for_gemini
        [Msg.ai "x" [{ id := "1", name := "file_operation" }],
         Msg.tool "done" "1" "file_operation"] =
      [Msg.ai "x" [{ id := "1", name := "file_operation" }]] ∧
    Msg.tool "done" "1" "file_operation" ∉
      sanitize_messages_for_gemini
        [Msg.ai "x" [{ id := "1", name := "file_operation" }],
         Msg.tool "done" "1" "file_operation"] ∧
    sanitize_messages_for_gemini [Msg.ai "" [{ id := "1", name := "file_operation" }]] =
      [] := by
  have h1 : sanitize_messages_for_gemini
      [Msg.ai "x" [{ id := "1", name := "file_operation" }],
       Msg.tool "done" "1" "file_operation"] =
      [Msg.ai "x" [{ id := "1", name := "file_operation" }]] := by
    simp [sanitize_messages_for_gemini, dropTrailingTools, sanitizeCore,
      matchedToolRun, eqAsSets, Msg.toolIdOf, Msg.isToolMsg, List.dropWhile]
  have h2 : sanitize_messages_for_gemini
      [Msg.ai "" [{ id := "1", name := "file_operation" }]] = [] := by
    simp [sanitize_messages_for_gemini, dropTrailingTools, sanitizeCore,
      matchedToolRun, eqAsSets, Msg.toolIdOf, Msg.isToolMsg, List.dropWhile]
  refine ⟨h1, ?_, h2⟩
  rw [h1]
  decide

/-- C4 (amended): the walk keeps an assistant message together with
its immediately following complete response run; an assistant message
with an incomplete pairing survives only as a text-only copy when its
content is non-empty (it is dropped entirely when the content is
empty) and its partial responses are dropped; afterwards every
trailing Tool message of the result — including the responses of a
complete pair that ends the log — is popped, so no Tool message is
final. -/
theorem C4_amended_sanitizer_behaviour (c : String) (calls : List ToolCall)
    (resps rest : List Msg) (l : List Msg)
    (hcalls : calls ≠ [])
    (hresp : ∀ m ∈ resps, ∃ cc i n, m = Msg.tool cc i n ∧
      i ∈ calls.map ToolCall.id)
    (hhead : ∀ cc i n, rest.head? = some (Msg.tool cc i n) →
      i ∉ calls.map ToolCall.id) :
    (eqAsSets (resps.map Msg.toolIdOf) (calls.map ToolCall.id) = true →
        resps ≠ [] →
        sanitizeCore (Msg.ai c calls :: (resps ++ rest)) =
          Msg.ai c calls :: (resps ++ sanitizeCore rest))
  ∧ (eqAsSets (resps.map Msg.toolIdOf) (calls.map ToolCall.id) = false →
        sanitizeCore (Msg.ai c calls :: (resps ++ rest)) =
          (if c = "" then [] else [Msg.ai c []]) ++ sanitizeCore rest)
  ∧ (∀ m, (sanitize_messages_for_gemini l).getLast? = some m →
        m.isToolMsg = false) := by
  refine ⟨?_, ?_, ?_⟩
  · intro hsets hne
    exact sanitizeCore_complete c calls resps rest hcalls hresp hsets hne hhead
  · intro hsets
    exact sanitizeCore_incomplete c calls resps rest hcalls hresp hsets hhead
  · intro m hm
    exact sanitize_no_trailing_tool l m hm

/-- C4 witness: the amended sanitiser theorem applied to a concrete
log whose complete pair is followed by a human message. -/
theorem C4_amended_sanitizer_witness :
    sanitizeCore
        [Msg.ai "ok" [{ id := "1", name := "file_operation" }],
         Msg.tool "r" "1" "file_operation", Msg.human "hi"] =
      [Msg.ai "ok" [{ id := "1", name := "file_operation" }],
       Msg.tool "r" "1" "file_operation", Msg.human "hi"] := by
  have h := (C4_amended_sanitizer_behaviour "ok"
      [{ id := "1", name := "file_operation" }]
      [Msg.tool "r" "1" "file_operation"] [Msg.human "hi"] []
      (by decide)
      (by
        intro m hm
        simp at hm
        subst hm
        exact ⟨"r", "1", "file_operation", rfl, by decide⟩)
      (by
        intro cc i n hm
        simp at hm)).1 (by decide) (by decide)
  simpa [sanitizeCore] using h

/-- C5 counterexample: a 31-entry log whose tool response sits at
position 1 is truncated to its last 30 entries, so the window starts
with an orphan Tool message; for the default role (no Gemini
sanitisation) that orphan is passed onward unchanged, not dropped. -/
theorem C5_cx_orphan_tool_retained :
    30 < (msgs31.filter (fun m => !m.isSystem)).length ∧
    ((prepMessages "default" false 30 "sys" msgs31).drop 1).head? =
      some (Msg.tool "done" "1" "file_operation") := by
  refine ⟨by decide, rfl⟩

/-- C5 (amended): when the filtered log exceeds MAX_HISTORY the
truncation is a bare tail slice; for roles other than vision and smart
on non-Gemini models the window — orphan leading Tool message
included — is passed onward exactly as sliced. -/
theorem C5_amended_truncation_plain_slice (role : String) (g : Bool)
    (maxH : Nat) (s : String) (msgs : List Msg)
    (h1 : role ≠ "vision") (h2 : role ≠ "smart") (h3 : g = false)
    (hlen : maxH < (msgs.filter (fun m => !m.isSystem)).length) :
    prepMessages role g maxH s msgs =
      Msg.system s :: lastN maxH (msgs.filter (fun m => !m.isSystem)) := by
  rw [prepMessages_no_sanitize role g maxH s msgs h1 h2 h3, if_pos hlen]

/-- C5 witness: the amended truncation theorem applied to the
31-message fixture under the default role. -/
theorem C5_amended_truncation_witness :
    prepMessages "default" false 30 "sys" msgs31 =
      Msg.system "sys" :: lastN 30 (msgs31.filter (fun m => !m.isSystem)) :=
  C5_amended_truncation_plain_slice "default" false 30 "sys" msgs31
    (by decide) (by decide) rfl (by decide)

/-- C6 counterexample: state_updater_node applies a role string that
is outside the enum — a switch_role tool result carrying
__JARVIS_SWITCH_ROLE__:bogus changes current_role to "bogus" even
though "bogus" is not an available role, so the node performs no enum
validation. -/
theorem C6_cx_state_updater_accepts_non_enum_role :
    state_updater_node
        [Msg.tool "__JARVIS_SWITCH_ROLE__:bogus" "t1" "switch_role"]
        "default" = some "bogus" ∧
    availableRoles.contains "bogus" = false := by
  refine ⟨rfl, rfl⟩

/-- C6 (amended): the enum validation lives only in the switch_role
tool — an unresolvable role yields a refusal text that does not begin
with the marker, and a valid role yields the marker line with the
canonical enum role; the state_updater node itself applies any
non-empty role token found after the marker, without checking it
against the enum. -/
theorem C6_amended_role_validation_split (d : String → String)
    (rInv rVal rTok cur tid : String)
    (hinv : availableRoles.contains (resolve_role_alias rInv) = false)
    (hval : availableRoles.contains (resolve_role_alias rVal) = true)
    (hn : Char.ofNat 10 ∉ rTok.toList)
    (hc : Char.ofNat 58 ∉ rTok.toList)
    (ht : pyTrim rTok = rTok)
    (hne : rTok ≠ "")
    (hcur : rTok ≠ cur) :
    pyStartsWith (switch_role d rInv) ROLE_SWITCH_MARKER = false
  ∧ switch_role d rVal =
      ROLE_SWITCH_MARKER ++ ":" ++ resolve_role_alias rVal ++ "\n已切换到 " ++
        resolve_role_alias rVal ++ " 模式。\n" ++ d (resolve_role_alias rVal)
  ∧ state_updater_node
      [Msg.tool (ROLE_SWITCH_MARKER ++ ":" ++ rTok) tid "switch_role"] cur =
      some rTok := by
  refine ⟨switch_role_invalid_no_marker d rInv hinv, ?_, ?_⟩
  · simp only [switch_role]
    rw [if_pos hval]
  · exact state_updater_applies_unvalidated rTok cur tid hn hc ht hne hcur

/-- C6 witness: the amended theorem applied to the invalid role
"nonsense", the alias 视觉 (resolving to vision), and the unvalidated
token "bogusrole". -/
theorem C6_amended_role_validation_witness :
    pyStartsWith (switch_role (fun _ => "D") "nonsense") ROLE_SWITCH_MARKER = false
  ∧ switch_role (fun _ => "D") "视觉" =
      ROLE_SWITCH_MARKER ++ ":" ++ resolve_role_alias "视觉" ++ "\n已切换到 " ++
        resolve_role_alias "视觉" ++ " 模式。\n" ++ "D"
  ∧ state_updater_node
      [Msg.tool (ROLE_SWITCH_MARKER ++ ":" ++ "bogusrole") "t9" "switch_role"]
      "default" = some "bogusrole" :=
  C6_amended_role_validation_split (fun _ => "D") "nonsense" "视觉" "bogusrole"
    "default" "t9" (by decide) (by decide) (by decide) (by decide) (by decide)
    (by decide) (by decide)

/-- C7 counterexample: on the re-entry into chatbot right after a
tools execution, a non-Gemini role (here default) passes the log to
the model with the Tool message as the final element — invariant I4
fails for every role outside {vision, smart} on non-Gemini models. -/
theorem C7_cx_trailing_tool_sent_to_model :
    (prepMessages "default" false 30 "p"
        [Msg.human "删文件",
         Msg.ai "" [{ id := "1", name := "file_operation" }],
         Msg.tool "done" "1" "file_operation"]).getLast? =
      some (Msg.tool "done" "1" "file_operation") ∧
    (Msg.tool "done" "1" "file_operation").isToolMsg = true := by
  refine ⟨rfl, rfl⟩

/-- C7 (amended): the no-trailing-Tool invariant holds exactly on the
sanitised path — when the active role is vision or smart, or the
bound model is a Gemini model, the list chatbot passes to the model
never ends in a Tool message. -/
theorem C7_amended_no_trailing_tool_when_sanitized (role : String) (g : Bool)
    (maxH : Nat) (s : String) (msgs : List Msg)
    (h : role = "vision" ∨ role = "smart" ∨ g = true) :
    ∀ m, (prepMessages role g maxH s msgs).getLast? = some m →
      m.isToolMsg = false :=
  prepMessages_sanitized_last role g maxH s msgs h

/-- C7 witness: the amended invariant applied to the vision role on a
log consisting of a single orphan Tool message. -/
theorem C7_amended_no_trailing_tool_witness :
    (prepMessages "vision" false 30 "p" [Msg.tool "r" "1" "f"]).getLast? =
      some (Msg.system "p") ∧
    (Msg.system "p").isToolMsg = false := by
  have h1 : (prepMessages "vision" false 30 "p" [Msg.tool "r" "1" "f"]).getLast? =
      some (Msg.system "p") := by
    simp [prepMessages, lastN, sanitize_messages_for_gemini, sanitizeCore,
      dropTrailingTools, matchedToolRun, Msg.isToolMsg, Msg.isSystem,
      List.dropWhile]
  exact ⟨h1,
    C7_amended_no_trailing_tool_when_sanitized "vision" false 30 "p"
      [Msg.tool "r" "1" "f"] (Or.inl rfl) (Msg.system "p") h1⟩

/-- C8: whenever the LLM invocation inside chatbot_node raises, or
returns a response with neither content nor tool calls, the state
delta of the node is exactly one assistant message — with no tool calls and
a non-empty failure text (the exception message truncated to 100
characters, or the fixed apology) — and the node returns normally
rather than propagating the exception. -/
theorem C8_chatbot_failure_single_message
    (r : Except String (String × List ToolCall))
    (h : (∃ e, r = .error e) ∨ r = .ok ("", [])) :
    (∀ e, r = .error e →
        chatbotDelta r =
          [Msg.ai ("抱歉，AI 模型调用失败：" ++ takeChars 100 e) []])
  ∧ (r = .ok ("", []) →
        chatbotDelta r =
          [Msg.ai "抱歉，我没有收到有效的响应。请重试或检查网络连接。" []])
  ∧ ∃ s, chatbotDelta r = [Msg.ai s []] ∧ s ≠ "" := by
  refine ⟨?_, ?_, ?_⟩
  · intro e hEq
    subst hEq
    rfl
  · intro hEq
    subst hEq
    rfl
  · rcases h with ⟨e, hEq⟩ | hEq <;> subst hEq
    · exact ⟨"抱歉，AI 模型调用失败：" ++ takeChars 100 e, rfl,
        string_append_ne_empty _ _ (by decide)⟩
    · exact ⟨"抱歉，我没有收到有效的响应。请重试或检查网络连接。", rfl, by decide⟩

/-- C8 witness: the failure-handling theorem applied to a concrete
exception. -/
theorem C8_chatbot_failure_witness :
    ∃ s, chatbotDelta (Except.error "boom") = [Msg.ai s []] ∧ s ≠ "" :=
  (C8_chatbot_failure_single_message (Except.error "boom")
    (Or.inl ⟨"boom", rfl⟩)).2.2

/-- C9 counterexample: with no environment variables set the default
role has no credentials (api_key is None), yet LLMFactory.create still
returns a model for every role — vision falls back to an OpenAI-
provider model built from the own entry of the vision role (model
gemini-1.5-flash), not from the default configuration, and no
NoLLMAvailable error exists or is raised. -/
theorem C9_cx_create_never_fails :
    cfgGet ((rolesFind (Config_LLM_ROLES envEmpty) "default").getD []) "api_key" =
      PyVal.pynone
  ∧ LLMFactory_create (Config_LLM_ROLES envEmpty) "vision" =
      .ok { provider := "openai", model := .str "gemini-1.5-flash",
            api_key := .pynone, base_url := .pynone }
  ∧ LLMFactory_create (Config_LLM_ROLES envEmpty) "default" =
      .ok { provider := "openai", model := .str "gpt-3.5-turbo",
            api_key := .pynone, base_url := .str "https://api.openai.com/v1" }
  ∧ (PyVal.str "gemini-1.5-flash" : PyVal) ≠ .str "gpt-3.5-turbo" := by
  refine ⟨rfl, rfl, rfl, by decide⟩

/-- C9 (amended): a role missing from LLM_ROLES, or whose entry is
empty or lacks a truthy provider, falls back to the entry of the
default role; an ollama entry without host and a gemini entry without api_key
fall back to the OpenAI provider applied to the same entry (not
to the default configuration); and LLMFactory.create is total — it
returns a model for every configuration and role, and never fails with
any error. -/
theorem C9_amended_factory_fallback (roles : RolesConfig) (role : String)
    (c : ConfigDict) :
    (rolesFind roles role = none →
        LLMFactory_get_role_config roles role =
          LLMFactory_get_role_config roles "default")
  ∧ (rolesFind roles role = some c →
      (c.isEmpty || !(cfgGet c "provider").truthy) = true →
        LLMFactory_get_role_config roles role =
          (rolesFind roles "default").getD [])
  ∧ (cfgGetD c "provider" (.str "openai") = .str "gemini" →
      (cfgGet c "api_key").truthy = false →
        LLMFactory_resolve_provider c = "openai")
  ∧ (cfgGetD c "provider" (.str "openai") = .str "ollama" →
      (cfgGet c "host").truthy = false →
        LLMFactory_resolve_provider c = "openai")
  ∧ ∃ s, LLMFactory_create roles role = .ok s := by
  refine ⟨?_, ?_, ?_, ?_, LLMFactory_create_total roles role⟩
  · intro h
    simp [LLMFactory_get_role_config, h]
  · intro h1 h2
    simp only [LLMFactory_get_role_config, h1, Option.isSome_some, if_true,
      Option.getD_some]
    rw [if_pos h2]
  · intro h1 h2
    simp [LLMFactory_resolve_provider, h1, h2]
  · intro h1 h2
    simp [LLMFactory_resolve_provider, h1, h2]

/-- C9 witness: the amended fallback theorem applied to a one-entry
configuration whose single role entry has no provider. -/
theorem C9_amended_factory_witness :
    LLMFactory_get_role_config [("smart", [("model", PyVal.str "m")])] "smart" =
      (rolesFind [("smart", [("model", PyVal.str "m")])] "default").getD []
  ∧ ∃ s, LLMFactory_create [("smart", [("model", PyVal.str "m")])] "smart" =
      .ok s := by
  have h := C9_amended_factory_fallback [("smart", [("model", PyVal.str "m")])]
    "smart" [("model", PyVal.str "m")]
  exact ⟨h.2.1 rfl (by decide), h.2.2.2.2⟩

/-- C10: get_tool_risk_level returns the risk_level metadata entry
when the metadata is a dict containing that key, and "safe" in every
other case (metadata None, not a dict, or lacking the key); a
registered tool without risk metadata is therefore classified safe,
and under the auto-approve-safe policy the driver resumes its calls
without asking for confirmation. -/
theorem C10_risk_level_defaults_safe (t : ToolDef)
    (entries : List (String × String)) (v : String)
    (reg : List ToolDef) (name tid : String) :
    (t.metadata = MetaVal.dict entries →
        dictFind entries "risk_level" = some v →
        get_tool_risk_level t = v)
  ∧ ((t.metadata = MetaVal.pynone ∨ t.metadata = MetaVal.nondict ∨
      (t.metadata = MetaVal.dict entries ∧
        dictFind entries "risk_level" = none)) →
        get_tool_risk_level t = "safe")
  ∧ (registryGet reg name = some t → t.metadata = MetaVal.pynone →
        safetyBranch true reg [{ id := tid, name := name }] =
          SafetyDecision.autoResume) := by
  refine ⟨?_, ?_, ?_⟩
  · intro hmeta hfind
    simp [get_tool_risk_level, hmeta, hfind]
  · intro h
    rcases h with hmeta | hmeta | ⟨hmeta, hfind⟩ <;>
      simp [get_tool_risk_level, hmeta]
    simp [hfind]
  · intro hreg hmeta
    have hrisk : get_tool_risk_level t = "safe" := by
      simp [get_tool_risk_level, hmeta]
    simp only [safetyBranch, check_tool_calls_safety_reg, hreg, hrisk]
    simp

/-- C10 witness: the metadata theorem applied to a dangerous-labelled
tool and to a metadata-less registered tool whose single call
auto-resumes. -/
theorem C10_risk_level_defaults_safe_witness :
    get_tool_risk_level
        { name := "x", metadata := MetaVal.dict [("risk_level", "dangerous")] } =
      "dangerous"
  ∧ get_tool_risk_level { name := "mytool", metadata := MetaVal.pynone } = "safe"
  ∧ safetyBranch true [{ name := "mytool", metadata := MetaVal.pynone }]
      [{ id := "1", name := "mytool" }] = SafetyDecision.autoResume := by
  refine ⟨?_, ?_, ?_⟩
  · exact (C10_risk_level_defaults_safe
      { name := "x", metadata := MetaVal.dict [("risk_level", "dangerous")] }
      [("risk_level", "dangerous")] "dangerous" [] "x" "1").1 rfl rfl
  · exact (C10_risk_level_defaults_safe
      { name := "mytool", metadata := MetaVal.pynone }
      [] "v" [] "mytool" "1").2.1 (Or.inl rfl)
  · exact (C10_risk_level_defaults_safe
      { name := "mytool", metadata := MetaVal.pynone } [] "v"
      [{ name := "mytool", metadata := MetaVal.pynone }] "mytool" "1").2.2
      rfl rfl
